import Mathlib

/-!
# Verification of `hdl21.primitives`

A shallow embedding of `src/hdl21/primitives.py`: the `Primitive` and
`PrimitiveCall` dataclasses, the parameter-schema value types
(`MosParams`, `ResistorParams`, ...), and the registry of built-in
primitive constants with their aliases.

Conventions of the embedding:
* Python exceptions become `Except Err` results; `Err` distinguishes the
  error kinds of the spec's taxonomy (schema-type errors, port-declaration
  errors, param-type mismatches, param-value errors, and the `TypeError`
  Python raises for an unorderable comparison such as `None <= 0`).
* Python `float` parameter fields are modelled as `ℚ`; no claim here
  depends on floating-point rounding, only on values being carried around.
* The parameter-schema classes of the file form a closed family of
  mutually unrelated classes, so Python's `isinstance(v, T)` coincides
  with `type(v) == T` on this family; values are embedded as a sum type
  tagged with their schema type.
-/

namespace Hdl21

/-- Error kinds raised by the code, following the spec's taxonomy.
`schemaTypeError` and `paramTypeMismatchError` are `TypeError`s in the
source; `portDeclarationError` and `paramValueError` are `ValueError`s;
`pyComparisonTypeError` is the `TypeError` Python raises when an
unorderable comparison such as `None <= 0` is evaluated. -/
inductive Err where
  | schemaTypeError
  | portDeclarationError
  | paramTypeMismatchError
  | paramValueError
  | pyComparisonTypeError
deriving DecidableEq, Repr

/-- Modelled from the spec: port visibility tag from `hdl21.signal`
(not under `src/`); primitives require the "port" visibility. -/
inductive Visibility where
  | PORT
  | INTERNAL
deriving DecidableEq, Repr

/-- Modelled from the spec: a named signal endpoint from `hdl21.signal`
(not under `src/`), carrying a name, a visibility tag and a width. -/
structure Signal where
  name : String
  vis : Visibility
  width : Nat
deriving DecidableEq, Repr

/-- Modelled from the spec: `Port(name=...)` constructs a `Signal` with
PORT visibility (default width 1). -/
def Port (name : String) : Signal :=
  { name := name, vis := Visibility.PORT, width := 1 }

/-- `PrimitiveType` enumeration: IDEAL vs PHYSICAL. -/
inductive PrimitiveType where
  | IDEAL
  | PHYSICAL
deriving DecidableEq, Repr

/-- `MosType` enumeration: NMOS / PMOS. -/
inductive MosType where
  | NMOS
  | PMOS
deriving DecidableEq, Repr

/-- `MosVth` enumeration: STD / LOW / HIGH. -/
inductive MosVth where
  | STD
  | LOW
  | HIGH
deriving DecidableEq, Repr

/-- The parameter-schema classes declared in `primitives.py` (plus
`HasNoParams`, imported there from `hdl21.params`). -/
inductive ParamType where
  | MosParams
  | DiodeParams
  | ResistorParams
  | PhysicalResistorParams
  | IdealCapacitorParams
  | PhysicalCapacitorParams
  | IdealInductorParams
  | PhysicalInductorParams
  | PhysicalShortParams
  | HasNoParams
  | VoltageSourceParams
  | CurrentSourceParams
deriving DecidableEq, Repr

/-- A Python type as seen by `Primitive`'s `paramtype : Type` field:
either one of the parameter-schema classes or some other type. -/
inductive PyType where
  | paramclass (t : ParamType)
  | otherType (name : String)
deriving DecidableEq, Repr

/-- Modelled from the spec: the `isparamclass` type-membership test from
`hdl21.params` (not under `src/`): true exactly on parameter-schema
classes. -/
def isparamclass : PyType → Bool
  | PyType.paramclass _ => true
  | PyType.otherType _ => false

/-- `MosParams` field record: w, l Optional[int] (default None),
nser, npar int (default 1), tp MosType (default NMOS), vth MosVth
(default STD). -/
structure MosParams where
  w : Option Int
  l : Option Int
  nser : Int
  npar : Int
  tp : MosType
  vth : MosVth
deriving DecidableEq, Repr

/-- `MosParams.__post_init_post_parse__`: validation run at construction.
Checks `w <= 0`, `l <= 0`, `npar <= 0`, `nser <= 0` in source order; a
`None` width or length makes Python's `None <= 0` comparison raise a
`TypeError` before any bound is judged. -/
def mkMosParams (w l : Option Int) (nser npar : Int) (tp : MosType) (vth : MosVth) :
    Except Err MosParams :=
  match w with
  | none => Except.error Err.pyComparisonTypeError
  | some wv =>
    if wv ≤ 0 then Except.error Err.paramValueError
    else
      match l with
      | none => Except.error Err.pyComparisonTypeError
      | some lv =>
        if lv ≤ 0 then Except.error Err.paramValueError
        else if npar ≤ 0 then Except.error Err.paramValueError
        else if nser ≤ 0 then Except.error Err.paramValueError
        else Except.ok ⟨w, l, nser, npar, tp, vth⟩

/-- A `MosParams` value that Python construction would have accepted. -/
def MosParams.valid (p : MosParams) : Bool :=
  match p.w, p.l with
  | some wv, some lv => 0 < wv && 0 < lv && 0 < p.nser && 0 < p.npar
  | _, _ => false

/-- `DiodeParams`: w, l Optional[int] (default None), no extra checks. -/
structure DiodeParams where
  w : Option Int
  l : Option Int
deriving DecidableEq, Repr

/-- `ResistorParams`: r float, required. -/
structure ResistorParams where
  r : ℚ
deriving DecidableEq, Repr

/-- `PhysicalResistorParams`: r float, required (declared but unused by
any registry constant). -/
structure PhysicalResistorParams where
  r : ℚ
deriving DecidableEq, Repr

/-- `IdealCapacitorParams`: c float, required. -/
structure IdealCapacitorParams where
  c : ℚ
deriving DecidableEq, Repr

/-- `PhysicalCapacitorParams`: c float, required. -/
structure PhysicalCapacitorParams where
  c : ℚ
deriving DecidableEq, Repr

/-- `IdealInductorParams`: l float, required. -/
structure IdealInductorParams where
  l : ℚ
deriving DecidableEq, Repr

/-- `PhysicalInductorParams`: l float, required. -/
structure PhysicalInductorParams where
  l : ℚ
deriving DecidableEq, Repr

/-- `PhysicalShortParams`: layer, w, l Optional[int] (default None). -/
structure PhysicalShortParams where
  layer : Option Int
  w : Option Int
  l : Option Int
deriving DecidableEq, Repr

/-- `ScalarParam = Union[int, float, str]`. -/
inductive ScalarParam where
  | i (n : Int)
  | f (q : ℚ)
  | s (st : String)
deriving DecidableEq, Repr

/-- `ScalarOption = Optional[ScalarParam]`. -/
abbrev ScalarOption := Option ScalarParam

/-- `VoltageSourceParams`: dc scalar?(0) plus delay and pulse fields,
all scalar?(None); no cross-field validation. -/
structure VoltageSourceParams where
  dc : ScalarOption
  delay : ScalarOption
  v0 : ScalarOption
  v1 : ScalarOption
  period : ScalarOption
  rise : ScalarOption
  fall : ScalarOption
  width : ScalarOption
deriving DecidableEq, Repr

/-- `CurrentSourceParams`: dc scalar?(0). -/
structure CurrentSourceParams where
  dc : ScalarOption
deriving DecidableEq, Repr

/-- A parameter-value instance, tagged by the schema class it was
constructed from. `hasNoParams` is the canonical value of the
`HasNoParams` marker schema (modelled from the spec: `HasNoParams` lives
in `hdl21.params`, not under `src/`). -/
inductive ParamValue where
  | mosParams (p : MosParams)
  | diodeParams (p : DiodeParams)
  | resistorParams (p : ResistorParams)
  | physicalResistorParams (p : PhysicalResistorParams)
  | idealCapacitorParams (p : IdealCapacitorParams)
  | physicalCapacitorParams (p : PhysicalCapacitorParams)
  | idealInductorParams (p : IdealInductorParams)
  | physicalInductorParams (p : PhysicalInductorParams)
  | physicalShortParams (p : PhysicalShortParams)
  | hasNoParams
  | voltageSourceParams (p : VoltageSourceParams)
  | currentSourceParams (p : CurrentSourceParams)
deriving DecidableEq, Repr

/-- `type(v)`: the schema class a parameter value was built from. On
this closed family of mutually unrelated classes, Python's
`isinstance(v, T)` holds exactly when `type(v) == T`. -/
def ParamValue.ptype : ParamValue → ParamType
  | ParamValue.mosParams _ => ParamType.MosParams
  | ParamValue.diodeParams _ => ParamType.DiodeParams
  | ParamValue.resistorParams _ => ParamType.ResistorParams
  | ParamValue.physicalResistorParams _ => ParamType.PhysicalResistorParams
  | ParamValue.idealCapacitorParams _ => ParamType.IdealCapacitorParams
  | ParamValue.physicalCapacitorParams _ => ParamType.PhysicalCapacitorParams
  | ParamValue.idealInductorParams _ => ParamType.IdealInductorParams
  | ParamValue.physicalInductorParams _ => ParamType.PhysicalInductorParams
  | ParamValue.physicalShortParams _ => ParamType.PhysicalShortParams
  | ParamValue.hasNoParams => ParamType.HasNoParams
  | ParamValue.voltageSourceParams _ => ParamType.VoltageSourceParams
  | ParamValue.currentSourceParams _ => ParamType.CurrentSourceParams

/-- `Primitive` dataclass: name, desc, port_list, paramtype, primtype. -/
structure Primitive where
  name : String
  desc : String
  port_list : List Signal
  paramtype : PyType
  primtype : PrimitiveType
deriving DecidableEq, Repr

/-- The per-port check of `Primitive.__post_init_post_parse__`: the port
must have a non-empty name (`if not p.name`) and PORT visibility. -/
def portOk (p : Signal) : Bool :=
  p.name ≠ "" && p.vis = Visibility.PORT

/-- `Primitive` construction including `__post_init_post_parse__`:
first the `isparamclass` check on `paramtype` (a `TypeError`, the spec's
`SchemaTypeError` kind), then the per-port checks (`ValueError`s, the
spec's `PortDeclarationError` kind). -/
def Primitive.construct (name desc : String) (port_list : List Signal)
    (paramtype : PyType) (primtype : PrimitiveType) : Except Err Primitive :=
  if ¬ isparamclass paramtype then Except.error Err.schemaTypeError
  else if ¬ port_list.all portOk then Except.error Err.portDeclarationError
  else Except.ok ⟨name, desc, port_list, paramtype, primtype⟩

/-- Insertion into a Python dict: a repeated key keeps its original
position but takes the new value. -/
def dictInsert (m : List (String × Signal)) (k : String) (v : Signal) :
    List (String × Signal) :=
  if m.any (fun kv => kv.1 = k) then
    m.map (fun kv => if kv.1 = k then (k, v) else kv)
  else m ++ [(k, v)]

/-- The dict comprehension `{p.name: p for p in self.port_list}`. -/
def portsDict (port_list : List Signal) : List (String × Signal) :=
  port_list.foldl (fun m p => dictInsert m p.name p) []

/-- `Primitive.ports`: name-keyed mapping over `port_list`. -/
def Primitive.ports (p : Primitive) : List (String × Signal) :=
  portsDict p.port_list

/-- `Primitive.Params` accessor. -/
def Primitive.Params (p : Primitive) : PyType :=
  p.paramtype

/-- `PrimitiveCall` dataclass: a primitive paired with parameter values. -/
structure PrimitiveCall where
  prim : Primitive
  params : ParamValue
deriving DecidableEq, Repr

/-- `PrimitiveCall.__post_init_post_parse__`: the
`isinstance(self.params, self.prim.paramtype)` check; on the closed
schema family this is type identity. Failure is a `TypeError`, the
spec's `ParamTypeMismatchError` kind. -/
def PrimitiveCall.construct (prim : Primitive) (params : ParamValue) :
    Except Err PrimitiveCall :=
  if prim.paramtype = PyType.paramclass params.ptype then
    Except.ok ⟨prim, params⟩
  else Except.error Err.paramTypeMismatchError

/-- `Primitive.__call__`: build a `PrimitiveCall` from this primitive. -/
def Primitive.call (p : Primitive) (params : ParamValue) :
    Except Err PrimitiveCall :=
  PrimitiveCall.construct p params

/-- `PrimitiveCall.ports`: delegates to the originating primitive. -/
def PrimitiveCall.ports (c : PrimitiveCall) : List (String × Signal) :=
  c.prim.ports

/-- The `Mos` registry constant. -/
def Mos : Primitive :=
  { name := "Mos"
    desc := "Mos Transistor"
    port_list := [Port "d", Port "g", Port "s", Port "b"]
    paramtype := PyType.paramclass ParamType.MosParams
    primtype := PrimitiveType.PHYSICAL }

/-- `dataclasses.replace(params, tp=t)`: builds a fresh `MosParams` from
the old fields with `tp` overridden, which re-runs the pydantic
validation of `__post_init_post_parse__`. -/
def mosReplaceTp (p : MosParams) (t : MosType) : Except Err MosParams :=
  mkMosParams p.w p.l p.nser p.npar t p.vth

/-- `Nmos`: wrapper calling `Mos` with `tp` overridden to NMOS. -/
def Nmos (p : MosParams) : Except Err PrimitiveCall := do
  let p2 ← mosReplaceTp p MosType.NMOS
  Mos.call (ParamValue.mosParams p2)

/-- `Pmos`: wrapper calling `Mos` with `tp` overridden to PMOS. -/
def Pmos (p : MosParams) : Except Err PrimitiveCall := do
  let p2 ← mosReplaceTp p MosType.PMOS
  Mos.call (ParamValue.mosParams p2)

/-- The `Diode` registry constant. -/
def Diode : Primitive :=
  { name := "Diode"
    desc := "Diode"
    port_list := [Port "p", Port "n"]
    paramtype := PyType.paramclass ParamType.DiodeParams
    primtype := PrimitiveType.PHYSICAL }

/-- Alias `D = Diode`. -/
def D : Primitive := Diode

/-- The `IdealResistor` registry constant. -/
def IdealResistor : Primitive :=
  { name := "IdealResistor"
    desc := "Ideal Resistor"
    port_list := [Port "p", Port "n"]
    paramtype := PyType.paramclass ParamType.ResistorParams
    primtype := PrimitiveType.IDEAL }

/-- Alias `R = IdealResistor`. -/
def R : Primitive := IdealResistor

/-- Alias `Res = IdealResistor`. -/
def Res : Primitive := IdealResistor

/-- Alias `Resistor = IdealResistor`. -/
def Resistor : Primitive := IdealResistor

/-- The `PhysicalResistor` registry constant; note its `paramtype` is
`ResistorParams`, not `PhysicalResistorParams` (source line 229). -/
def PhysicalResistor : Primitive :=
  { name := "PhysicalResistor"
    desc := "Physical Resistor"
    port_list := [Port "p", Port "n"]
    paramtype := PyType.paramclass ParamType.ResistorParams
    primtype := PrimitiveType.PHYSICAL }

/-- The `IdealCapacitor` registry constant. -/
def IdealCapacitor : Primitive :=
  { name := "IdealCapacitor"
    desc := "Ideal Capacitor"
    port_list := [Port "p", Port "n"]
    paramtype := PyType.paramclass ParamType.IdealCapacitorParams
    primtype := PrimitiveType.IDEAL }

/-- Alias `C = IdealCapacitor`. -/
def C : Primitive := IdealCapacitor

/-- Alias `Cap = IdealCapacitor`. -/
def Cap : Primitive := IdealCapacitor

/-- Alias `Capacitor = IdealCapacitor`. -/
def Capacitor : Primitive := IdealCapacitor

/-- The `PhysicalCapacitor` registry constant. -/
def PhysicalCapacitor : Primitive :=
  { name := "PhysicalCapacitor"
    desc := "Physical Capacitor"
    port_list := [Port "p", Port "n"]
    paramtype := PyType.paramclass ParamType.PhysicalCapacitorParams
    primtype := PrimitiveType.PHYSICAL }

/-- The `IdealInductor` registry constant. -/
def IdealInductor : Primitive :=
  { name := "IdealInductor"
    desc := "Ideal Inductor"
    port_list := [Port "p", Port "n"]
    paramtype := PyType.paramclass ParamType.IdealInductorParams
    primtype := PrimitiveType.IDEAL }

/-- Alias `L = IdealInductor`. -/
def L : Primitive := IdealInductor

/-- Alias `Inductor = IdealInductor`. -/
def Inductor : Primitive := IdealInductor

/-- The `PhysicalInductor` registry constant. -/
def PhysicalInductor : Primitive :=
  { name := "PhysicalInductor"
    desc := "Physical Inductor"
    port_list := [Port "p", Port "n"]
    paramtype := PyType.paramclass ParamType.PhysicalInductorParams
    primtype := PrimitiveType.PHYSICAL }

/-- The `PhysicalShort` registry constant. -/
def PhysicalShort : Primitive :=
  { name := "PhysicalShort"
    desc := "Short-Circuit/ Net-Tie"
    port_list := [Port "p", Port "n"]
    paramtype := PyType.paramclass ParamType.PhysicalShortParams
    primtype := PrimitiveType.PHYSICAL }

/-- The `IdealShort` registry constant: paramtype is the `HasNoParams`
marker schema. -/
def IdealShort : Primitive :=
  { name := "IdealShort"
    desc := "Short-Circuit/ Net-Tie"
    port_list := [Port "p", Port "n"]
    paramtype := PyType.paramclass ParamType.HasNoParams
    primtype := PrimitiveType.IDEAL }

/-- Alias `Short = IdealShort`. -/
def Short : Primitive := IdealShort

/-- The `VoltageSource` registry constant. -/
def VoltageSource : Primitive :=
  { name := "VoltageSource"
    desc := "Ideal Voltage Source"
    port_list := [Port "p", Port "n"]
    paramtype := PyType.paramclass ParamType.VoltageSourceParams
    primtype := PrimitiveType.IDEAL }

/-- Alias `V = VoltageSource`. -/
def V : Primitive := VoltageSource

/-- Alias `Vsrc = VoltageSource`. -/
def Vsrc : Primitive := VoltageSource

/-- The `CurrentSource` registry constant. -/
def CurrentSource : Primitive :=
  { name := "CurrentSource"
    desc := "Ideal Current Source"
    port_list := [Port "p", Port "n"]
    paramtype := PyType.paramclass ParamType.CurrentSourceParams
    primtype := PrimitiveType.IDEAL }

/-- Alias `I = CurrentSource`. -/
def I : Primitive := CurrentSource

/-- Alias `Isrc = CurrentSource`. -/
def Isrc : Primitive := CurrentSource

/-- The registry of built-in `Primitive` constants. -/
def registry : List Primitive :=
  [Mos, Diode, IdealResistor, PhysicalResistor, IdealCapacitor,
   PhysicalCapacitor, IdealInductor, PhysicalInductor, PhysicalShort,
   IdealShort, VoltageSource, CurrentSource]

/-- Helper: `dataclasses.replace` on a valid `MosParams` re-validates
successfully and yields the same fields with `tp` overridden. -/
theorem mosReplaceTp_of_valid (p : MosParams) (t : MosType) (h : p.valid = true) :
    mosReplaceTp p t = Except.ok ⟨p.w, p.l, p.nser, p.npar, t, p.vth⟩ := by
  cases hw : p.w with
  | none => simp [MosParams.valid, hw] at h
  | some wv =>
    cases hl : p.l with
    | none => simp [MosParams.valid, hw, hl] at h
    | some lv =>
      simp only [MosParams.valid, hw, hl, Bool.and_eq_true, decide_eq_true_eq] at h
      obtain ⟨⟨⟨h1, h2⟩, h3⟩, h4⟩ := h
      simp only [mosReplaceTp, hw, hl, mkMosParams]
      split_ifs with a b c d <;> first | omega | rfl

/-- C1: a call on a `Primitive` with declared paramtype `T` succeeds
exactly when the value's schema type equals `T`; any other schema type
(including structurally identical ones) yields the
`ParamTypeMismatchError` kind; in particular `IdealShort` called with
anything but the `HasNoParams` marker fails that way. -/
theorem call_type_matches_iff (p : Primitive) (T : ParamType)
    (hT : p.paramtype = PyType.paramclass T) (v : ParamValue) :
    ((p.call v).isOk ↔ v.ptype = T) ∧
    (v.ptype ≠ T → p.call v = Except.error Err.paramTypeMismatchError) ∧
    (v ≠ ParamValue.hasNoParams →
      IdealShort.call v = Except.error Err.paramTypeMismatchError) := by
  refine ⟨?_, ?_, ?_⟩
  · by_cases h : v.ptype = T
    · simp [Primitive.call, PrimitiveCall.construct, hT, h, Except.isOk,
        Except.toBool]
    · have h2 : ¬(T = v.ptype) := fun heq => h heq.symm
      simp [Primitive.call, PrimitiveCall.construct, hT, h, h2, Except.isOk,
        Except.toBool]
  · intro h
    simp [Primitive.call, PrimitiveCall.construct, hT]
    intro heq
    exact absurd heq.symm h
  · intro h
    have hp : v.ptype ≠ ParamType.HasNoParams := by
      cases v <;> simp [ParamValue.ptype]
      exact h rfl
    simp [Primitive.call, PrimitiveCall.construct, IdealShort]
    intro heq
    exact absurd heq.symm hp

/-- Witness for C1 at `IdealShort` called with a `ResistorParams` value. -/
theorem call_type_matches_iff_witness :
    IdealShort.paramtype = PyType.paramclass ParamType.HasNoParams ∧
    ParamValue.resistorParams ⟨5⟩ ≠ ParamValue.hasNoParams ∧
    IdealShort.call (ParamValue.resistorParams ⟨5⟩) =
      Except.error Err.paramTypeMismatchError :=
  ⟨rfl, by decide,
    (call_type_matches_iff IdealShort ParamType.HasNoParams rfl
      (ParamValue.resistorParams ⟨5⟩)).2.2 (by decide)⟩

/-- C2: `MosParams` construction with integer `w`, `l` succeeds exactly
when all of `w`, `l`, `nser`, `npar` are positive (for every `tp`, `vth`
enum member), and any violated bound fails with the `ParamValueError`
kind. -/
theorem mosParams_validation (w l nser npar : Int) (tp : MosType) (vth : MosVth) :
    ((mkMosParams (some w) (some l) nser npar tp vth).isOk ↔
      0 < w ∧ 0 < l ∧ 0 < nser ∧ 0 < npar) ∧
    ((w ≤ 0 ∨ l ≤ 0 ∨ nser ≤ 0 ∨ npar ≤ 0) →
      mkMosParams (some w) (some l) nser npar tp vth =
        Except.error Err.paramValueError) := by
  constructor
  · simp only [mkMosParams]
    split_ifs with h1 h2 h3 h4 <;>
      simp only [Except.isOk, Except.toBool, false_iff, true_iff,
        Bool.false_eq_true, Bool.true_eq_false] <;> omega
  · intro h
    simp only [mkMosParams]
    split_ifs with h1 h2 h3 h4 <;> first | rfl | omega

/-- Witness for C2: width -1 is rejected with the `ParamValueError` kind. -/
theorem mosParams_validation_witness :
    ((-1 : Int) ≤ 0 ∨ (2 : Int) ≤ 0 ∨ (1 : Int) ≤ 0 ∨ (1 : Int) ≤ 0) ∧
    mkMosParams (some (-1)) (some 2) 1 1 MosType.NMOS MosVth.STD =
      Except.error Err.paramValueError :=
  ⟨Or.inl (by decide),
    (mosParams_validation (-1) 2 1 1 MosType.NMOS MosVth.STD).2 (Or.inl (by decide))⟩

/-- C3: `Nmos p` and `Pmos p` derive a fresh params value (the input is
never mutated: `replace` builds a new record); the resulting call's
params have `tp` forced to NMOS / PMOS and every other field equal to
the corresponding field of `p`. -/
theorem nmos_pmos_preserve_fields (p : MosParams) (h : p.valid = true) :
    (∃ q : MosParams, Nmos p = Except.ok ⟨Mos, ParamValue.mosParams q⟩ ∧
      q.tp = MosType.NMOS ∧ q.w = p.w ∧ q.l = p.l ∧ q.nser = p.nser ∧
      q.npar = p.npar ∧ q.vth = p.vth) ∧
    (∃ q : MosParams, Pmos p = Except.ok ⟨Mos, ParamValue.mosParams q⟩ ∧
      q.tp = MosType.PMOS ∧ q.w = p.w ∧ q.l = p.l ∧ q.nser = p.nser ∧
      q.npar = p.npar ∧ q.vth = p.vth) := by
  have hn := mosReplaceTp_of_valid p MosType.NMOS h
  have hp := mosReplaceTp_of_valid p MosType.PMOS h
  constructor
  · exact ⟨⟨p.w, p.l, p.nser, p.npar, MosType.NMOS, p.vth⟩,
      by simp [Nmos, hn, Primitive.call, PrimitiveCall.construct, Mos,
        ParamValue.ptype, Bind.bind, Except.bind],
      rfl, rfl, rfl, rfl, rfl, rfl⟩
  · exact ⟨⟨p.w, p.l, p.nser, p.npar, MosType.PMOS, p.vth⟩,
      by simp [Pmos, hp, Primitive.call, PrimitiveCall.construct, Mos,
        ParamValue.ptype, Bind.bind, Except.bind],
      rfl, rfl, rfl, rfl, rfl, rfl⟩

/-- Witness for C3 at a concrete valid `MosParams`. -/
theorem nmos_pmos_preserve_fields_witness :
    (MosParams.mk (some 3) (some 2) 1 1 MosType.PMOS MosVth.LOW).valid = true ∧
    ((∃ q : MosParams,
        Nmos ⟨some 3, some 2, 1, 1, MosType.PMOS, MosVth.LOW⟩ =
          Except.ok ⟨Mos, ParamValue.mosParams q⟩ ∧
        q.tp = MosType.NMOS ∧ q.w = some 3 ∧ q.l = some 2 ∧ q.nser = 1 ∧
        q.npar = 1 ∧ q.vth = MosVth.LOW) ∧
      (∃ q : MosParams,
        Pmos ⟨some 3, some 2, 1, 1, MosType.PMOS, MosVth.LOW⟩ =
          Except.ok ⟨Mos, ParamValue.mosParams q⟩ ∧
        q.tp = MosType.PMOS ∧ q.w = some 3 ∧ q.l = some 2 ∧ q.nser = 1 ∧
        q.npar = 1 ∧ q.vth = MosVth.LOW)) :=
  ⟨by decide,
    nmos_pmos_preserve_fields ⟨some 3, some 2, 1, 1, MosType.PMOS, MosVth.LOW⟩
      (by decide)⟩

/-- C4: constructing a `Primitive` with a paramtype that fails the
`isparamclass` test always fails with the `SchemaTypeError` kind, and no
`Primitive` value is produced. -/
theorem primitive_invalid_paramtype (name desc : String) (pl : List Signal)
    (t : PyType) (pt : PrimitiveType) (h : isparamclass t = false) :
    Primitive.construct name desc pl t pt = Except.error Err.schemaTypeError := by
  simp [Primitive.construct, h]

/-- Witness for C4: `int` is not a paramclass. -/
theorem primitive_invalid_paramtype_witness :
    isparamclass (PyType.otherType "int") = false ∧
    Primitive.construct "X" "an X" [Port "p"] (PyType.otherType "int")
      PrimitiveType.IDEAL = Except.error Err.schemaTypeError :=
  ⟨rfl, primitive_invalid_paramtype "X" "an X" [Port "p"]
    (PyType.otherType "int") PrimitiveType.IDEAL rfl⟩

/-- C5: with a valid paramtype, constructing a `Primitive` whose
port_list contains an unnamed port or a port without PORT visibility
always fails with the `PortDeclarationError` kind. -/
theorem primitive_bad_port (name desc : String) (pl : List Signal)
    (t : PyType) (pt : PrimitiveType) (ht : isparamclass t = true)
    (s : Signal) (hs : s ∈ pl)
    (hbad : s.name = "" ∨ s.vis ≠ Visibility.PORT) :
    Primitive.construct name desc pl t pt =
      Except.error Err.portDeclarationError := by
  have hall : pl.all portOk = false := by
    rw [List.all_eq_false]
    refine ⟨s, hs, ?_⟩
    rcases hbad with hb | hb <;> simp [portOk, hb]
  simp [Primitive.construct, ht, hall]

/-- Witness for C5: an unnamed port is rejected. -/
theorem primitive_bad_port_witness :
    isparamclass (PyType.paramclass ParamType.MosParams) = true ∧
    (Signal.mk "" Visibility.PORT 1) ∈ [Signal.mk "" Visibility.PORT 1] ∧
    ((Signal.mk "" Visibility.PORT 1).name = "" ∨
      (Signal.mk "" Visibility.PORT 1).vis ≠ Visibility.PORT) ∧
    Primitive.construct "X" "an X" [Signal.mk "" Visibility.PORT 1]
      (PyType.paramclass ParamType.MosParams) PrimitiveType.IDEAL =
      Except.error Err.portDeclarationError :=
  ⟨rfl, List.mem_singleton.mpr rfl, Or.inl rfl,
    primitive_bad_port "X" "an X" [Signal.mk "" Visibility.PORT 1]
      (PyType.paramclass ParamType.MosParams) PrimitiveType.IDEAL rfl
      (Signal.mk "" Visibility.PORT 1) (List.mem_singleton.mpr rfl)
      (Or.inl rfl)⟩

/-- C6: every built-in primitive's `ports` mapping has exactly the
declared port names as keys, in declaration order, with PORT visibility
throughout; a call's `ports` delegates to its primitive; and the
concrete `Mos(MosParams(w=10, l=2, nser=1, npar=4, NMOS, STD))` call
succeeds with port keys d, g, s, b. -/
theorem registry_ports_correct :
    (∀ c ∈ registry, c.ports.map Prod.fst = c.port_list.map Signal.name ∧
      ∀ kv ∈ c.ports, kv.2.vis = Visibility.PORT) ∧
    (∀ c : PrimitiveCall, c.ports = c.prim.ports) ∧
    (∃ c : PrimitiveCall,
      (mkMosParams (some 10) (some 2) 1 4 MosType.NMOS MosVth.STD).bind
        (fun m => Mos.call (ParamValue.mosParams m)) = Except.ok c ∧
      c.ports.map Prod.fst = ["d", "g", "s", "b"]) :=
  ⟨by decide, fun _ => rfl,
    ⟨⟨Mos, ParamValue.mosParams ⟨some 10, some 2, 1, 4, MosType.NMOS, MosVth.STD⟩⟩,
      rfl, rfl⟩⟩

/-- Witness for C6 at the `Mos` registry constant. -/
theorem registry_ports_correct_witness :
    Mos ∈ registry ∧
    (Mos.ports.map Prod.fst = Mos.port_list.map Signal.name ∧
      ∀ kv ∈ Mos.ports, kv.2.vis = Visibility.PORT) :=
  ⟨by decide, registry_ports_correct.1 Mos (by decide)⟩

/-- C7: every alias is definitionally the same registry constant as its
target: `R`/`Res`/`Resistor` = `IdealResistor`, `C`/`Cap`/`Capacitor` =
`IdealCapacitor`, `L`/`Inductor` = `IdealInductor`, `D` = `Diode`,
`V`/`Vsrc` = `VoltageSource`, `I`/`Isrc` = `CurrentSource`, `Short` =
`IdealShort`. -/
theorem alias_identity :
    R = IdealResistor ∧ Res = IdealResistor ∧ Resistor = IdealResistor ∧
    C = IdealCapacitor ∧ Cap = IdealCapacitor ∧ Capacitor = IdealCapacitor ∧
    L = IdealInductor ∧ Inductor = IdealInductor ∧
    D = Diode ∧ V = VoltageSource ∧ Vsrc = VoltageSource ∧
    I = CurrentSource ∧ Isrc = CurrentSource ∧ Short = IdealShort :=
  ⟨rfl, rfl, rfl, rfl, rfl, rfl, rfl, rfl, rfl, rfl, rfl, rfl, rfl, rfl⟩

/-- C8: `IdealResistor` and `PhysicalResistor` share the
`ResistorParams` schema, while the capacitor, inductor and short
physical/ideal pairs use distinct schema types. -/
theorem resistor_schema_sharing :
    IdealResistor.paramtype = PyType.paramclass ParamType.ResistorParams ∧
    PhysicalResistor.paramtype = IdealResistor.paramtype ∧
    IdealCapacitor.paramtype ≠ PhysicalCapacitor.paramtype ∧
    IdealInductor.paramtype ≠ PhysicalInductor.paramtype ∧
    IdealShort.paramtype ≠ PhysicalShort.paramtype := by
  refine ⟨rfl, rfl, ?_, ?_, ?_⟩ <;> decide

/-- Witness for C8: the shared resistor schema, derived from the
theorem at the `PhysicalResistor` constant. -/
theorem resistor_schema_sharing_witness :
    PhysicalResistor.paramtype = PyType.paramclass ParamType.ResistorParams :=
  resistor_schema_sharing.2.1.trans resistor_schema_sharing.1

/-- C9: for every valid `MosParams` value, `Nmos` and `Pmos` return a
`PrimitiveCall` (not a `Primitive`, despite their annotation in the
source) whose `prim` field is the `Mos` registry constant itself. -/
theorem nmos_pmos_return_primitive_call (p : MosParams) (h : p.valid = true) :
    (∃ c : PrimitiveCall, Nmos p = Except.ok c ∧ c.prim = Mos) ∧
    (∃ c : PrimitiveCall, Pmos p = Except.ok c ∧ c.prim = Mos) := by
  have hn := mosReplaceTp_of_valid p MosType.NMOS h
  have hp := mosReplaceTp_of_valid p MosType.PMOS h
  constructor
  · exact ⟨⟨Mos, ParamValue.mosParams ⟨p.w, p.l, p.nser, p.npar, MosType.NMOS, p.vth⟩⟩,
      by simp [Nmos, hn, Primitive.call, PrimitiveCall.construct, Mos,
        ParamValue.ptype, Bind.bind, Except.bind], rfl⟩
  · exact ⟨⟨Mos, ParamValue.mosParams ⟨p.w, p.l, p.nser, p.npar, MosType.PMOS, p.vth⟩⟩,
      by simp [Pmos, hp, Primitive.call, PrimitiveCall.construct, Mos,
        ParamValue.ptype, Bind.bind, Except.bind], rfl⟩

/-- Witness for C9 at a concrete valid `MosParams`. -/
theorem nmos_pmos_return_primitive_call_witness :
    (MosParams.mk (some 5) (some 1) 2 3 MosType.NMOS MosVth.HIGH).valid = true ∧
    ((∃ c : PrimitiveCall,
        Nmos ⟨some 5, some 1, 2, 3, MosType.NMOS, MosVth.HIGH⟩ =
          Except.ok c ∧ c.prim = Mos) ∧
      (∃ c : PrimitiveCall,
        Pmos ⟨some 5, some 1, 2, 3, MosType.NMOS, MosVth.HIGH⟩ =
          Except.ok c ∧ c.prim = Mos)) :=
  ⟨by decide,
    nmos_pmos_return_primitive_call ⟨some 5, some 1, 2, 3, MosType.NMOS, MosVth.HIGH⟩
      (by decide)⟩

/-- C10: duplicate port names are accepted by `Primitive` construction;
the `ports` mapping binds the repeated name to the last such port in
declaration order, so the mapping has fewer entries than `port_list`. -/
theorem duplicate_port_names_accepted (t : ParamType) (pt : PrimitiveType)
    (name desc : String) (s1 s2 : Signal) (hn : s2.name = s1.name)
    (hne : s1.name ≠ "") (hv1 : s1.vis = Visibility.PORT)
    (hv2 : s2.vis = Visibility.PORT) :
    ∃ prim : Primitive,
      Primitive.construct name desc [s1, s2] (PyType.paramclass t) pt =
        Except.ok prim ∧
      prim.ports = [(s1.name, s2)] ∧
      prim.ports.length < prim.port_list.length := by
  have hall : List.all [s1, s2] portOk = true := by
    simp [portOk, hne, hv1, hv2, hn]
  refine ⟨⟨name, desc, [s1, s2], PyType.paramclass t, pt⟩, ?_, ?_, ?_⟩
  · simp [Primitive.construct, isparamclass, hall]
  · simp [Primitive.ports, portsDict, dictInsert, hn]
  · simp [Primitive.ports, portsDict, dictInsert, hn]

/-- Witness for C10: two distinct ports both named "a". -/
theorem duplicate_port_names_accepted_witness :
    (Signal.mk "a" Visibility.PORT 2).name = (Signal.mk "a" Visibility.PORT 1).name ∧
    (Signal.mk "a" Visibility.PORT 1).name ≠ "" ∧
    Signal.mk "a" Visibility.PORT 1 ≠ Signal.mk "a" Visibility.PORT 2 ∧
    (∃ prim : Primitive,
      Primitive.construct "X" "an X"
        [Signal.mk "a" Visibility.PORT 1, Signal.mk "a" Visibility.PORT 2]
        (PyType.paramclass ParamType.MosParams) PrimitiveType.IDEAL =
        Except.ok prim ∧
      prim.ports = [("a", Signal.mk "a" Visibility.PORT 2)] ∧
      prim.ports.length < prim.port_list.length) :=
  ⟨rfl, by decide, by decide,
    duplicate_port_names_accepted ParamType.MosParams PrimitiveType.IDEAL
      "X" "an X" (Signal.mk "a" Visibility.PORT 1) (Signal.mk "a" Visibility.PORT 2)
      rfl (by decide) rfl rfl⟩

end Hdl21
